import Mathlib

/-!
Verification of `pdsql/util.py`: a shallow embedding of its three functions
(`compare_dfs`, `create_engine`, `save_df`) and proofs about them.

A pandas `DataFrame` is modelled as a `DF`: an ordered list of column names,
a parallel list of column dtypes, and a list of rows, each row a list of
values parallel to the column list.  Cell values are `Value`: a null (pandas
`NaN`/`None`), a numeric value (float64 cells, modelled by `ℚ`), a string or
a boolean.  `float64` columns are compared with `np.isclose`'s tolerance
(`rtol = 1e-5`, `atol = 1e-8`); other columns with pandas `!=`.
-/

namespace Pdsql

/-- A pandas column dtype, as far as `compare_dfs` distinguishes them:
`old_set[c].dtype.name == 'float64'` selects tolerance comparison, every
other dtype gets exact `!=` comparison. -/
inductive Dtype where
  | float64
  | object
deriving DecidableEq, Repr

/-- A cell value.  `null` stands for the pandas missing value (`NaN` after the
`comp2[comp2.isnull()] = np.nan` normalisation); float64 cells are `num`. -/
inductive Value where
  | null
  | num (q : ℚ)
  | str (s : String)
  | bool (b : Bool)
deriving DecidableEq, Repr

/-- `Series.isnull()` for a single cell. -/
def Value.isNull : Value → Bool
  | .null => true
  | _ => false

/-- A cell that may legitimately sit in a `float64` column: a number or `NaN`. -/
def Value.isNumOrNull : Value → Bool
  | .null => true
  | .num _ => true
  | _ => false

/-- `np.isclose` default relative tolerance. -/
def rtol : ℚ := 1 / 100000

/-- `np.isclose` default absolute tolerance. -/
def atol : ℚ := 1 / 100000000

/-- `np.isclose(a, b)` on two rationals: the inequality
`|a - b| <= atol + rtol * |b|`, cross-multiplied into integer arithmetic so
that the kernel can evaluate it (the rational field operations are
irreducible); `iscloseQ_iff` below recovers the rational form. -/
def iscloseQ (a b : ℚ) : Bool :=
  decide (((a.num * (b.den : Int) - b.num * (a.den : Int)).natAbs : Int)
      * 10000000000000 * (b.den : Int)
    ≤ ((a.den : Int) * (b.den : Int)) *
        (100000 * (b.den : Int) + 100000000 * (b.num.natAbs : Int)))

/-- `np.isclose(a, b)` for two float64 cells: `|a - b| <= atol + rtol * |b|`.
`np.isclose` is `False` whenever either side is `NaN` (and a non-number in a
float column never compares close). -/
def isclose : Value → Value → Bool
  | .num a, .num b => iscloseQ a b
  | _, _ => false

/-- pandas elementwise `!=` applied to two cells after null normalisation: `NaN` is
unequal to everything, including another `NaN`. -/
def pdNe (a b : Value) : Bool :=
  a.isNull || b.isNull || decide (a ≠ b)

/-- One iteration of the comparison loop of `compare_dfs` (util.py lines
54-62) for a single non-key column entry: `c1` is `~np.isclose` for float64
columns and `!=` otherwise, and `c2 = c1 & (old.notnull() | new.notnull())`. -/
def colDiffers (dt : Dtype) (a b : Value) : Bool :=
  (if dt = .float64 then ! isclose a b else pdNe a b) && (! a.isNull || ! b.isNull)

/-- A DataFrame row: cell values parallel to the column list. -/
abbrev Row := List Value

/-- A pandas DataFrame: named, typed columns and a list of rows. -/
structure DF where
  cols : List String
  dtypes : List Dtype
  rows : List Row
deriving DecidableEq, Repr

/-- Look up column `target` of a row: walk the column list and the row in
lockstep and return the cell under the first matching column name (missing
columns read as null, matching the `NaN` fill of an outer merge). -/
def valueAt : List String → Row → String → Value
  | [], _, _ => .null
  | _ :: _, [], _ => .null
  | c :: cs, v :: vs, target => if c = target then v else valueAt cs vs target

/-- Look up the dtype of column `target`. -/
def dtypeAt : List String → List Dtype → String → Dtype
  | [], _, _ => .object
  | _ :: _, [], _ => .object
  | c :: cs, d :: ds, target => if c = target then d else dtypeAt cs ds target

/-- The dtype of a named column of a DataFrame. -/
def dtypeOf (df : DF) (c : String) : Dtype :=
  dtypeAt df.cols df.dtypes c

/-- Project a row to the columns `cs` (pandas `df[cs]` applied rowwise). -/
def projRow (cs cols : List String) (row : Row) : Row :=
  cs.map (valueAt cols row)

/-- The composite key of a row: its values under the `on` columns, in the
order of `on`. -/
def keyTuple (onCols cols : List String) (row : Row) : Row :=
  projRow onCols cols row

/-- pandas column projection `df[cs]`. -/
def select (df : DF) (cs : List String) : DF :=
  ⟨cs, cs.map (dtypeOf df), df.rows.map (projRow cs df.cols)⟩

/-- `val_cols`, the non-key columns of `old_df` in column order (util.py line 36). -/
def valCols (old : DF) (onCols : List String) : List String :=
  old.cols.filter (fun c => ! onCols.contains c)

/-- `comp_index` for one merged row pair (util.py lines 53-62): the row is
classified as changed when any non-key column differs under `colDiffers`,
the old side's value taken from `old_set` and the new side's from `new_set`. -/
def rowDiffers (old new : DF) (onCols : List String) (o n : Row) : Bool :=
  (valCols old onCols).any (fun c =>
    colDiffers (dtypeOf old c) (valueAt old.cols o c) (valueAt new.cols n c))

/-- The `_merge == 'both'` rows of the outer merge (util.py line 39), with
`sort=False` order: for each old row in order, the new rows sharing its key
tuple, in new order.  Each element pairs the contributing old and new row. -/
def bothPairs (old new : DF) (onCols : List String) : List (Row × Row) :=
  old.rows.flatMap (fun o =>
    (new.rows.filter (fun n =>
      decide (keyTuple onCols new.cols n = keyTuple onCols old.cols o))).map (fun n => (o, n)))

/-- The old rows whose key matches no new row (`_merge == 'left_only'`). -/
def leftOnlyRows (old new : DF) (onCols : List String) : List Row :=
  old.rows.filter (fun o =>
    ! new.rows.any (fun n => decide (keyTuple onCols new.cols n = keyTuple onCols old.cols o)))

/-- The new rows whose key matches no old row (`_merge == 'right_only'`). -/
def rightOnlyRows (old new : DF) (onCols : List String) : List Row :=
  new.rows.filter (fun n =>
    ! old.rows.any (fun o => decide (keyTuple onCols old.cols o = keyTuple onCols new.cols n)))

/-- `diff_set = new_set[comp_index]` (util.py line 63): the full rows, taken
from the new relation and projected to `all_cols`, of key-matched pairs
classified as changed. -/
def diffRows (old new : DF) (onCols : List String) : List Row :=
  ((bothPairs old new onCols).filter (fun p => rowDiffers old new onCols p.1 p.2)).map
    (fun p => projRow old.cols new.cols p.2)

/-- The result dict of `compare_dfs`: keys `'diff'`, `'new'`, `'remove'`. -/
structure CompareResult where
  diff : DF
  new : DF
  remove : DF
deriving DecidableEq, Repr

/-- `compare_dfs(old_df, new_df, on)` (util.py lines 14-67); the key column
list parameter `on` is rendered `onCols` because `on` is reserved in Lean.

* Line 33 guard: `if ~np.in1d(old_df.columns, new_df.columns).any()` — because
  `~` binds after `.any()`, this raises only when NO old column occurs among
  the new columns, not whenever the column sets differ.
* `pd.merge` raises `KeyError` when a key column is missing
  from either frame.
* When `val_cols` is empty the loop body never runs and
  `pd.concat([], axis=1)` raises `ValueError('No objects to concatenate')`.
* Otherwise the result is built from the outer merge: `remove` is the
  left-only rows projected to the key columns, `new` is the right-only rows
  over `all_cols` (the new relation's values), and `diff` is the changed
  key-matched rows with the new relation's values. -/
def compare_dfs (old_df new_df : DF) (onCols : List String) : Except String CompareResult :=
  if old_df.cols.all (fun c => ! new_df.cols.contains c) then
    .error "Both DataFrames must have the same columns"
  else if ! (onCols.all (fun k => old_df.cols.contains k) &&
             onCols.all (fun k => new_df.cols.contains k)) then
    .error "KeyError"
  else if (valCols old_df onCols).isEmpty then
    .error "No objects to concatenate"
  else
    .ok { diff := ⟨old_df.cols, old_df.dtypes, diffRows old_df new_df onCols⟩
          new := ⟨old_df.cols, old_df.dtypes,
                  (rightOnlyRows old_df new_df onCols).map (projRow old_df.cols new_df.cols)⟩
          remove := ⟨onCols, onCols.map (dtypeOf old_df),
                     (leftOnlyRows old_df new_df onCols).map (projRow onCols old_df.cols)⟩ }

instance {ε α : Type} [DecidableEq ε] [DecidableEq α] : DecidableEq (Except ε α) := fun x y =>
  match x, y with
  | .ok a, .ok b =>
      if h : a = b then isTrue (congrArg Except.ok h)
      else isFalse (fun hc => h (Except.ok.inj hc))
  | .error a, .error b =>
      if h : a = b then isTrue (congrArg Except.error h)
      else isFalse (fun hc => h (Except.error.inj hc))
  | .ok _, .error _ => isFalse (fun hc => Except.noConfusion hc)
  | .error _, .ok _ => isFalse (fun hc => Except.noConfusion hc)

/-- Structural well-formedness of a DataFrame: distinct column names, one
dtype per column, rows parallel to the column list. -/
def wf (df : DF) : Prop :=
  df.cols.Nodup ∧ df.dtypes.length = df.cols.length ∧
    ∀ r ∈ df.rows, r.length = df.cols.length

/-- Every cell of a float64 column is a number or null (what pandas dtype
`float64` guarantees). -/
def floatWF (df : DF) : Prop :=
  ∀ c ∈ df.cols, dtypeOf df c = .float64 →
    ∀ r ∈ df.rows, (valueAt df.cols r c).isNumOrNull = true

/-- The key invariant of the spec: key tuples are unique within a relation. -/
def uniqueKeys (df : DF) (onCols : List String) : Prop :=
  (df.rows.map (keyTuple onCols df.cols)).Nodup

instance (df : DF) : Decidable (wf df) := by
  unfold wf
  infer_instance

instance (df : DF) : Decidable (floatWF df) := by
  unfold floatWF
  infer_instance

instance (df : DF) (onCols : List String) : Decidable (uniqueKeys df onCols) := by
  unfold uniqueKeys
  infer_instance

/-! ## `create_engine` (util.py lines 70-151) -/

/-- A Python exception surfacing to the caller. -/
inductive PyExc where
  | attributeError (msg : String)
  | unboundLocalError (msg : String)
deriving DecidableEq, Repr

/-- An sqlalchemy engine, determined by the connection string it was created
from (`sqlalchemy.create_engine(eng_str)` itself never opens a connection). -/
structure Engine where
  eng_str : String
deriving DecidableEq, Repr

/-- The external world `create_engine` interacts with: whether `import
pymssql` succeeds, and which connection strings `engine.connect()` accepts. -/
structure DBEnv where
  pymssql_available : Bool
  connect_ok : String → Bool

/-- The `up` credential fragment (util.py lines 95-101): `user:password@`,
`user@`, or empty. -/
def upString (username password : Option String) : String :=
  match username with
  | some u => (match password with | some pw => u ++ ":" ++ pw | none => u) ++ "@"
  | none => ""

/-- The pyodbc driver identifiers of the cascading try/except ladder
(util.py lines 107-135), in attempt order. -/
def mssqlDrivers : List String :=
  ["ODBC+Driver+17+for+SQL+Server", "ODBC+Driver+13.1+for+SQL+Server",
   "ODBC+Driver+13+for+SQL+Server", "ODBC+Driver+11+for+SQL+Server",
   "SQL+Server+Native+Client+11.0"]

/-- The nested try/except fallback of util.py lines 106-135: create a pyodbc
engine for the next driver and attempt `engine.connect()`; on failure move to
the next driver; the engine of the LAST driver is kept even when its
`connect()` also fails, and only the message
`'Install a proper ODBC mssql driver'` is printed.  Returns the resulting
engine together with the printed lines. -/
def mssqlDriverLadder (env : DBEnv) (base : String) : List String → Engine × List String
  | [] => (⟨base⟩, [])
  | [d] =>
      let e := base ++ "?driver=" ++ d
      if env.connect_ok e then (⟨e⟩, [])
      else (⟨e⟩, ["Install a proper ODBC mssql driver"])
  | d :: d2 :: rest =>
      let e := base ++ "?driver=" ++ d
      if env.connect_ok e then (⟨e⟩, [])
      else mssqlDriverLadder env base (d2 :: rest)

/-- `create_engine(db_type, server, database, username, password)` (util.py
lines 70-151).  The returned value is the engine and the list of printed
lines; a `db_type` outside the five recognised backends reaches
`return engine` with `engine` unassigned, an `UnboundLocalError`.  For
`mssql`, when `import pymssql` succeeds the pymssql engine is returned
without any `connect()` validation; otherwise the pyodbc driver ladder
runs. -/
def create_engine (env : DBEnv) (db_type server database : String)
    (username password : Option String) : Except PyExc (Engine × List String) :=
  let up := upString username password
  if db_type = "mssql" then
    if env.pymssql_available then
      .ok (⟨"mssql+pymssql://" ++ up ++ server ++ "/" ++ database⟩, [])
    else
      .ok (mssqlDriverLadder env ("mssql+pyodbc://" ++ up ++ server ++ "/" ++ database)
        mssqlDrivers)
  else if db_type = "postgresql" then
    .ok (⟨"postgresql://" ++ up ++ server ++ "/" ++ database⟩, [])
  else if db_type = "oracle" then
    .ok (⟨"oracle://" ++ up ++ server ++ "/" ++ database⟩, [])
  else if db_type = "mysql" then
    .ok (⟨"mysql+mysqldb://" ++ up ++ server ++ "/" ++ database⟩, [])
  else if db_type = "sqlite" then
    .ok (⟨"sqlite:///:memory:"⟩, [])
  else
    .error (.unboundLocalError "local variable engine referenced before assignment")

/-! ## `save_df` (util.py lines 154-169) -/

/-- A file-writing effect `save_df` could perform. -/
inductive SaveAction where
  | toHdf (path key : String)
  | toCsv (path : String) (index header : Bool)
deriving DecidableEq, Repr

/-- The attribute lookup `os.path_str` on line 163: the `os` module has no
attribute named `path_str` (the code meant the `path_str` argument), so the
lookup raises `AttributeError` before anything else happens. -/
def os_path_str : Except PyExc String :=
  .error (.attributeError "module os has no attribute path_str")

/-- `p` starts with the pattern given first. -/
def listStartsWith : List Char → List Char → Bool
  | [], _ => true
  | _ :: _, [] => false
  | a :: as, b :: bs => a = b && listStartsWith as bs

/-- Python's substring containment `sub in s` on character lists. -/
def listContainsSub (sub : List Char) : List Char → Bool
  | [] => sub.isEmpty
  | c :: cs => listStartsWith sub (c :: cs) || listContainsSub sub cs

/-- Python's `sub in s` on strings: substring containment (note `'' in s` is
`True`). -/
def strIn (sub s : String) : Bool := listContainsSub sub.toList s.toList

/-- `os.path.splitext` for ordinary paths: split off the extension at the
last dot of the final path component. -/
def splitext (p : String) : String × String :=
  let cs := p.toList
  let revExt := cs.reverse.takeWhile (fun ch => ch ≠ '.')
  if revExt.length = cs.length ∨ revExt.contains '/' then (p, "")
  else (String.mk (cs.take (cs.length - revExt.length - 1)),
        String.mk ('.' :: revExt.reverse))

/-- `save_df(df, path_str, index, header)` (util.py lines 154-169): returns
the file-writing actions performed, or the exception raised.  Line 163 is
`path1 = os.path.splitext(os.path_str)`; the `os.path_str` attribute lookup
raises `AttributeError`, so the two `in`-based dispatch branches (which test
`path1[1] in '.h5'` and `path1[1] in '.csv'`, Python substring tests) are
never reached. -/
def save_df (df : DF) (path_str : String) (index header : Bool) :
    Except PyExc (List SaveAction) := do
  let p ← os_path_str
  let path1 := splitext p
  let acts1 := if strIn path1.2 ".h5" then [SaveAction.toHdf path_str "df"] else []
  let acts2 := if strIn path1.2 ".csv" then [SaveAction.toCsv path_str index header] else []
  pure (acts1 ++ acts2)

/-! ## Concrete instances used by the claim theorems -/

/-- A one-row relation with a key column and one float value column. -/
def dfSelf : DF := ⟨["id", "val"], [.float64, .float64], [[.num 1, .num 10]]⟩

/-- A relation whose only column is its key column (no value columns). -/
def dfKeyOnly : DF := ⟨["id"], [.float64], [[.num 1]]⟩

/-- A key-only relation with a different key, for the disjoint case. -/
def dfKeyOnly2 : DF := ⟨["id"], [.float64], [[.num 2]]⟩

/-- Old relation for the disjoint-keys scenario: `{id: 2, val: 20}`. -/
def dfDisOld : DF := ⟨["id", "val"], [.float64, .float64], [[.num 2, .num 20]]⟩

/-- New relation for the disjoint-keys scenario: `{id: 3, val: 30}`. -/
def dfDisNew : DF := ⟨["id", "val"], [.float64, .float64], [[.num 3, .num 30]]⟩

/-- Old relation for the schema-mismatch scenario: columns `id`, `val`. -/
def dfMisOld : DF := ⟨["id", "val"], [.float64, .float64], [[.num 1, .num 10]]⟩

/-- New relation for the schema-mismatch scenario: columns `id`, `val`,
`extra` — a different column set that still overlaps the old one. -/
def dfMisNew : DF :=
  ⟨["id", "val", "extra"], [.float64, .float64, .float64], [[.num 1, .num 10, .num 1]]⟩

/-- Old relation for the null-semantics scenario: value column `v` is null. -/
def dfNullOld : DF := ⟨["id", "v"], [.float64, .object], [[.num 1, .null]]⟩

/-- New relation for the null-semantics scenario: `v` now carries a value. -/
def dfNullNew : DF := ⟨["id", "v"], [.float64, .object], [[.num 1, .str "x"]]⟩

/-- The result of `compare_dfs dfNullOld dfNullNew ["id"]`. -/
def resNull : CompareResult :=
  ⟨⟨["id", "v"], [.float64, .object], [[.num 1, .str "x"]]⟩,
   ⟨["id", "v"], [.float64, .object], []⟩,
   ⟨["id"], [.float64], []⟩⟩

/-- Old relation for the tolerance scenario: `val = 1.0`. -/
def dfTolOld : DF := ⟨["id", "val"], [.float64, .float64], [[.num 1, .num 1]]⟩

/-- New relation with `val = 1.0000001`, within `np.isclose` tolerance. -/
def dfTolClose : DF :=
  ⟨["id", "val"], [.float64, .float64], [[.num 1, .num (mkRat 10000001 10000000)]]⟩

/-- New relation with `val = 1.1`, outside `np.isclose` tolerance. -/
def dfTolFar : DF := ⟨["id", "val"], [.float64, .float64], [[.num 1, .num (mkRat 11 10)]]⟩

/-- Old relation for the output-shape scenario: keys 1 and 2. -/
def dfShapeOld : DF :=
  ⟨["id", "v"], [.float64, .float64], [[.num 1, .num 10], [.num 2, .num 20]]⟩

/-- New relation for the output-shape scenario: key 1 changed, key 3 added. -/
def dfShapeNew : DF :=
  ⟨["id", "v"], [.float64, .float64], [[.num 1, .num 11], [.num 3, .num 30]]⟩

/-- The result of `compare_dfs dfShapeOld dfShapeNew ["id"]`. -/
def resShape : CompareResult :=
  ⟨⟨["id", "v"], [.float64, .float64], [[.num 1, .num 11]]⟩,
   ⟨["id", "v"], [.float64, .float64], [[.num 3, .num 30]]⟩,
   ⟨["id"], [.float64], [[.num 2]]⟩⟩

/-- An environment in which `import pymssql` fails and every `connect()`
attempt fails. -/
def allFailEnv : DBEnv := ⟨false, fun _ => false⟩

/-! ## Basic lemmas -/

/-- A rational times its own denominator is its numerator. -/
theorem rat_mul_den (q : ℚ) : q * (q.den : ℚ) = (q.num : ℚ) := by
  have h : ((q.den : ℚ)) ≠ 0 := by exact_mod_cast q.den_nz
  rw [eq_comm, ← div_eq_iff h, Rat.num_div_den]

/-- The integer form of `np.isclose` used by `iscloseQ` decides exactly the
rational inequality `|a - b| ≤ atol + rtol * |b|`. -/
theorem iscloseQ_iff (a b : ℚ) : iscloseQ a b = true ↔ |a - b| ≤ atol + rtol * |b| := by
  have hDa : (0:ℚ) < (a.den : ℚ) := by exact_mod_cast a.pos
  have hDb : (0:ℚ) < (b.den : ℚ) := by exact_mod_cast b.pos
  have hM : (0:ℚ) < ((a.den : ℚ) * (b.den : ℚ)) * (10000000000000 * (b.den : ℚ)) := by positivity
  have key : (a.num : ℚ) * (b.den : ℚ) - (b.num : ℚ) * (a.den : ℚ) =
      (a - b) * ((a.den : ℚ) * (b.den : ℚ)) := by
    calc (a.num : ℚ) * (b.den : ℚ) - (b.num : ℚ) * (a.den : ℚ)
        = (a * (a.den : ℚ)) * (b.den : ℚ) - (b * (b.den : ℚ)) * (a.den : ℚ) := by
          rw [rat_mul_den a, rat_mul_den b]
      _ = (a - b) * ((a.den : ℚ) * (b.den : ℚ)) := by ring
  have hb : |(b.num : ℚ)| = |b| * (b.den : ℚ) := by
    conv_rhs => rw [← abs_of_pos hDb]
    rw [← abs_mul, rat_mul_den b]
  have eL : ((((a.num * (b.den : Int) - b.num * (a.den : Int)).natAbs : Int)
        * 10000000000000 * (b.den : Int) : Int) : ℚ) =
      |a - b| * (((a.den : ℚ) * (b.den : ℚ)) * (10000000000000 * (b.den : ℚ))) := by
    push_cast [Int.cast_natAbs]
    rw [key, abs_mul, abs_of_pos (mul_pos hDa hDb)]
    ring
  have eR : ((((a.den : Int) * (b.den : Int)) *
        (100000 * (b.den : Int) + 100000000 * (b.num.natAbs : Int)) : Int) : ℚ) =
      (atol + rtol * |b|) * (((a.den : ℚ) * (b.den : ℚ)) * (10000000000000 * (b.den : ℚ))) := by
    push_cast [Int.cast_natAbs]
    rw [atol, rtol, hb]
    ring
  rw [iscloseQ, decide_eq_true_iff, ← @Int.cast_le ℚ, eL, eR, mul_le_mul_right hM]

theorem valueAt_cons_self (c : String) (cs : List String) (v : Value) (vs : Row) :
    valueAt (c :: cs) (v :: vs) c = v := by
  simp [valueAt]

theorem valueAt_cons_of_ne {c target : String} (cs : List String) (v : Value) (vs : Row)
    (h : c ≠ target) : valueAt (c :: cs) (v :: vs) target = valueAt cs vs target := by
  simp [valueAt, h]

theorem projRow_self {cols : List String} {row : Row}
    (hnd : cols.Nodup) (hlen : row.length = cols.length) :
    projRow cols cols row = row := by
  induction cols generalizing row with
  | nil =>
    cases row with
    | nil => rfl
    | cons v vs => simp at hlen
  | cons c cs ih =>
    cases row with
    | nil => simp at hlen
    | cons v vs =>
      rw [List.nodup_cons] at hnd
      simp only [projRow, List.map_cons]
      rw [valueAt_cons_self]
      have hmap : cs.map (valueAt (c :: cs) (v :: vs)) = cs.map (valueAt cs vs) :=
        List.map_congr_left (fun a ha =>
          valueAt_cons_of_ne cs v vs (fun hca => hnd.1 (hca ▸ ha)))
      have hlen2 : vs.length = cs.length := by simpa using hlen
      have := ih hnd.2 hlen2
      simp only [projRow] at this
      rw [hmap, this]

theorem keyTuple_eq_of_projRow_eq {onCols allc cols : List String} {n n' : Row}
    (hsub : ∀ k ∈ onCols, k ∈ allc)
    (h : projRow allc cols n = projRow allc cols n') :
    keyTuple onCols cols n = keyTuple onCols cols n' := by
  have hpt := List.map_inj_left.mp h
  exact List.map_congr_left (fun k hk => hpt k (hsub k hk))

theorem colDiffers_null_null (dt : Dtype) : colDiffers dt .null .null = false := by
  cases dt <;> decide

theorem colDiffers_null_of_ne {dt : Dtype} {b : Value} (hb : b.isNull = false) :
    colDiffers dt .null b = true := by
  cases b <;> cases dt <;> simp_all [colDiffers, isclose, pdNe, Value.isNull]

theorem colDiffers_of_ne_null {dt : Dtype} {a : Value} (ha : a.isNull = false) :
    colDiffers dt a .null = true := by
  cases a <;> cases dt <;> simp_all [colDiffers, isclose, pdNe, Value.isNull]

theorem colDiffers_self {dt : Dtype} {a : Value} (h : dt = .float64 → a.isNumOrNull = true) :
    colDiffers dt a a = false := by
  cases dt with
  | float64 =>
    cases a with
    | null => decide
    | num q =>
      have hc : iscloseQ q q = true :=
        (iscloseQ_iff q q).mpr (by rw [sub_self, abs_zero, atol, rtol]; positivity)
      simp [colDiffers, isclose, hc]
    | str s => simp [Value.isNumOrNull] at h
    | bool b => simp [Value.isNumOrNull] at h
  | object =>
    cases ha : a.isNull <;> simp [colDiffers, pdNe, ha]

theorem rowDiffers_self {R : DF} {onCols : List String} (hfl : floatWF R)
    {o : Row} (ho : o ∈ R.rows) : rowDiffers R R onCols o o = false := by
  rw [rowDiffers, List.any_eq_false]
  intro c hc
  simp only [Bool.not_eq_true]
  exact colDiffers_self (fun hdt => hfl c (List.mem_of_mem_filter hc) hdt o ho)

theorem mem_bothPairs {old new : DF} {onCols : List String} {p : Row × Row} :
    p ∈ bothPairs old new onCols ↔
      p.1 ∈ old.rows ∧ p.2 ∈ new.rows ∧
        keyTuple onCols new.cols p.2 = keyTuple onCols old.cols p.1 := by
  simp only [bothPairs, List.mem_flatMap, List.mem_map, List.mem_filter]
  constructor
  · rintro ⟨o, ho, n, ⟨hn, hkey⟩, rfl⟩
    exact ⟨ho, hn, of_decide_eq_true hkey⟩
  · rintro ⟨h1, h2, h3⟩
    exact ⟨p.1, h1, p.2, ⟨h2, decide_eq_true h3⟩, Prod.mk.eta⟩

theorem mem_diffRows {old new : DF} {onCols : List String} {x : Row} :
    x ∈ diffRows old new onCols ↔
      ∃ o ∈ old.rows, ∃ n ∈ new.rows,
        keyTuple onCols new.cols n = keyTuple onCols old.cols o ∧
        rowDiffers old new onCols o n = true ∧ x = projRow old.cols new.cols n := by
  simp only [diffRows, List.mem_map, List.mem_filter]
  constructor
  · rintro ⟨p, ⟨hp, hd⟩, rfl⟩
    obtain ⟨h1, h2, h3⟩ := mem_bothPairs.mp hp
    exact ⟨p.1, h1, p.2, h2, h3, hd, rfl⟩
  · rintro ⟨o, ho, n, hn, hkey, hd, rfl⟩
    exact ⟨(o, n), ⟨mem_bothPairs.mpr ⟨ho, hn, hkey⟩, hd⟩, rfl⟩

theorem mem_leftOnlyRows {old new : DF} {onCols : List String} {o : Row} :
    o ∈ leftOnlyRows old new onCols ↔
      o ∈ old.rows ∧
        ∀ n ∈ new.rows, keyTuple onCols new.cols n ≠ keyTuple onCols old.cols o := by
  simp [leftOnlyRows, List.mem_filter, List.any_eq_false]

theorem mem_rightOnlyRows {old new : DF} {onCols : List String} {n : Row} :
    n ∈ rightOnlyRows old new onCols ↔
      n ∈ new.rows ∧
        ∀ o ∈ old.rows, keyTuple onCols old.cols o ≠ keyTuple onCols new.cols n := by
  simp [rightOnlyRows, List.mem_filter, List.any_eq_false]

theorem compare_dfs_ok_inv {old new : DF} {onCols : List String} {r : CompareResult}
    (hr : compare_dfs old new onCols = .ok r) :
    r = ⟨⟨old.cols, old.dtypes, diffRows old new onCols⟩,
         ⟨old.cols, old.dtypes, (rightOnlyRows old new onCols).map (projRow old.cols new.cols)⟩,
         ⟨onCols, onCols.map (dtypeOf old),
          (leftOnlyRows old new onCols).map (projRow onCols old.cols)⟩⟩ := by
  unfold compare_dfs at hr
  split_ifs at hr
  first
    | exact Except.noConfusion hr
    | (injection hr with h
       exact h.symm)

theorem compare_dfs_eq_ok {old new : DF} {onCols : List String}
    (h1 : ∃ c ∈ old.cols, c ∈ new.cols)
    (h2 : ∀ k ∈ onCols, k ∈ old.cols)
    (h3 : ∀ k ∈ onCols, k ∈ new.cols)
    (h4 : valCols old onCols ≠ []) :
    compare_dfs old new onCols =
      .ok ⟨⟨old.cols, old.dtypes, diffRows old new onCols⟩,
           ⟨old.cols, old.dtypes, (rightOnlyRows old new onCols).map (projRow old.cols new.cols)⟩,
           ⟨onCols, onCols.map (dtypeOf old),
            (leftOnlyRows old new onCols).map (projRow onCols old.cols)⟩⟩ := by
  obtain ⟨c, hc, hcn⟩ := h1
  unfold compare_dfs
  rw [if_neg (by simp; exact ⟨c, hc, hcn⟩),
      if_neg (by simp; exact ⟨h2, h3⟩),
      if_neg (by simp; exact h4)]

/-! ## Claim theorems -/

theorem Value.isNull_eq_false {v : Value} (h : v ≠ .null) : v.isNull = false := by
  cases v <;> first | exact absurd rfl h | rfl

/-- C1: the claim says `compare_dfs` fails with a schema error whenever the
column sets of `old` and `new` differ, with no partial result.  In fact the
guard `~np.in1d(old, new).any()` (line 33) only fires when NO old column
occurs in the new columns: on `dfMisOld`/`dfMisNew`, whose column sets
differ but overlap, `compare_dfs` returns a complete normal result and no
error at all. -/
theorem c1_schema_mismatch_not_detected :
    dfMisOld.cols ≠ dfMisNew.cols ∧
    compare_dfs dfMisOld dfMisNew ["id"] =
      .ok ⟨⟨["id", "val"], [.float64, .float64], []⟩,
           ⟨["id", "val"], [.float64, .float64], []⟩,
           ⟨["id"], [.float64], []⟩⟩ := by
  constructor
  · decide
  · decide

/-- C2 counterexample: when every column is a key column (no value columns),
`compare_dfs(R, R, key)` does not return three empty relations — the loop
body never runs and `pd.concat([], axis=1)` raises
`ValueError('No objects to concatenate')`, although the keys are unique and
the key list is non-empty. -/
theorem c2_all_key_columns_raises :
    uniqueKeys dfKeyOnly ["id"] ∧ (["id"] : List String) ≠ [] ∧
    compare_dfs dfKeyOnly dfKeyOnly ["id"] = .error "No objects to concatenate" := by
  refine ⟨?_, ?_, ?_⟩ <;> decide

/-- C2 amended: for every well-typed relation `R` with unique keys whose
column set contains at least one non-key column, and every non-empty key
column list present in `R`, `compare_dfs(R, R, key)` returns three empty
relations. -/
theorem c2_diff_self_empty (R : DF) (onCols : List String)
    (hne : onCols ≠ []) (hfl : floatWF R) (hsub : ∀ k ∈ onCols, k ∈ R.cols)
    (huniq : uniqueKeys R onCols) (hval : valCols R onCols ≠ []) :
    compare_dfs R R onCols =
      .ok ⟨⟨R.cols, R.dtypes, []⟩, ⟨R.cols, R.dtypes, []⟩,
           ⟨onCols, onCols.map (dtypeOf R), []⟩⟩ := by
  have h1 : ∃ c ∈ R.cols, c ∈ R.cols := by
    obtain ⟨c, hc⟩ := List.exists_mem_of_ne_nil _ hval
    exact ⟨c, List.mem_of_mem_filter hc, List.mem_of_mem_filter hc⟩
  rw [compare_dfs_eq_ok h1 hsub hsub hval]
  have hdiff : diffRows R R onCols = [] := by
    rw [diffRows, List.map_eq_nil_iff, List.filter_eq_nil_iff]
    intro p hp
    obtain ⟨hp1, hp2, hp3⟩ := mem_bothPairs.mp hp
    have h21 : p.2 = p.1 := List.inj_on_of_nodup_map huniq hp2 hp1 hp3
    simp only [Bool.not_eq_true]
    rw [h21]
    exact rowDiffers_self hfl hp1
  have hleft : leftOnlyRows R R onCols = [] := by
    rw [leftOnlyRows, List.filter_eq_nil_iff]
    intro o ho
    simp [List.any_eq_true]
    exact ⟨o, ho, rfl⟩
  have hright : rightOnlyRows R R onCols = [] := by
    rw [rightOnlyRows, List.filter_eq_nil_iff]
    intro n hn
    simp [List.any_eq_true]
    exact ⟨n, hn, rfl⟩
  rw [hdiff, hleft, hright]
  rfl

/-- C2 witness: the amended theorem applied to a concrete one-row
relation. -/
theorem c2_diff_self_empty_witness :
    compare_dfs dfSelf dfSelf ["id"] =
      .ok ⟨⟨dfSelf.cols, dfSelf.dtypes, []⟩, ⟨dfSelf.cols, dfSelf.dtypes, []⟩,
           ⟨["id"], (["id"] : List String).map (dtypeOf dfSelf), []⟩⟩ :=
  c2_diff_self_empty dfSelf ["id"] (by decide) (by decide) (by decide) (by decide) (by decide)

/-- C3 counterexample: two same-schema relations with unique, disjoint keys
but no value columns make `compare_dfs` raise
`ValueError('No objects to concatenate')` instead of returning
`new = new`, `remove = old[key]`, `diff = empty`. -/
theorem c3_all_key_columns_raises :
    dfKeyOnly.cols = dfKeyOnly2.cols ∧
    uniqueKeys dfKeyOnly ["id"] ∧ uniqueKeys dfKeyOnly2 ["id"] ∧
    (∀ o ∈ dfKeyOnly.rows, ∀ n ∈ dfKeyOnly2.rows,
        keyTuple ["id"] dfKeyOnly.cols o ≠ keyTuple ["id"] dfKeyOnly2.cols n) ∧
    compare_dfs dfKeyOnly dfKeyOnly2 ["id"] = .error "No objects to concatenate" := by
  refine ⟨?_, ?_, ?_, ?_, ?_⟩ <;> decide

/-- C3 amended: for same-schema inputs with unique keys, at least one
non-key column and disjoint key-tuple sets, `compare_dfs` returns the whole
new relation as `new`, the old relation projected to the key columns as
`remove`, and an empty `diff`. -/
theorem c3_disjoint_keys (old new : DF) (onCols : List String)
    (hwfn : wf new) (hcols : old.cols = new.cols) (hdts : old.dtypes = new.dtypes)
    (hsub : ∀ k ∈ onCols, k ∈ old.cols) (hval : valCols old onCols ≠ [])
    (huo : uniqueKeys old onCols) (hun : uniqueKeys new onCols)
    (hdisj : ∀ o ∈ old.rows, ∀ n ∈ new.rows,
        keyTuple onCols old.cols o ≠ keyTuple onCols new.cols n) :
    compare_dfs old new onCols =
      .ok ⟨⟨old.cols, old.dtypes, []⟩, new, select old onCols⟩ := by
  have h1 : ∃ c ∈ old.cols, c ∈ new.cols := by
    obtain ⟨c, hc⟩ := List.exists_mem_of_ne_nil _ hval
    exact ⟨c, List.mem_of_mem_filter hc, hcols ▸ List.mem_of_mem_filter hc⟩
  rw [compare_dfs_eq_ok h1 hsub (fun k hk => hcols ▸ hsub k hk) hval]
  have hboth : bothPairs old new onCols = [] := by
    rw [bothPairs, List.flatMap_eq_nil_iff]
    intro o ho
    rw [List.map_eq_nil_iff, List.filter_eq_nil_iff]
    intro n hn
    simp only [decide_eq_true_eq]
    exact fun h => hdisj o ho n hn h.symm
  have hdiff : diffRows old new onCols = [] := by
    rw [diffRows, hboth]
    rfl
  have hleft : leftOnlyRows old new onCols = old.rows := by
    rw [leftOnlyRows, List.filter_eq_self]
    intro o ho
    simp [List.any_eq_false]
    exact fun n hn h => hdisj o ho n hn h.symm
  have hright : rightOnlyRows old new onCols = new.rows := by
    rw [rightOnlyRows, List.filter_eq_self]
    intro n hn
    simp [List.any_eq_false]
    exact fun o ho h => hdisj o ho n hn h
  rw [hdiff, hleft, hright]
  have hrows : new.rows.map (projRow old.cols new.cols) = new.rows := by
    conv_rhs => rw [← List.map_id new.rows]
    rw [hcols]
    exact List.map_congr_left (fun r hr => projRow_self hwfn.1 (hwfn.2.2 r hr))
  have hnew : (⟨old.cols, old.dtypes, new.rows.map (projRow old.cols new.cols)⟩ : DF) = new := by
    rw [hrows, hcols, hdts]
  rw [hnew]
  rfl

/-- C3 witness: the amended theorem applied to concrete one-row relations
with disjoint keys. -/
theorem c3_disjoint_keys_witness :
    compare_dfs dfDisOld dfDisNew ["id"] =
      .ok ⟨⟨dfDisOld.cols, dfDisOld.dtypes, []⟩, dfDisNew, select dfDisOld ["id"]⟩ :=
  c3_disjoint_keys dfDisOld dfDisNew ["id"] (by decide) rfl rfl (by decide) (by decide)
    (by decide) (by decide) (by decide)

/-- C4: for a row whose key occurs in both inputs, a non-key column that is
null on both sides contributes no difference (`colDiffers` is false, and a
row all of whose non-key columns are null-null never lands in `diff`),
while a non-key column that is null on exactly one side always puts the
row — with the new relation's values — into `diff`. -/
theorem c4_null_semantics (old new : DF) (onCols : List String) (o n : Row)
    (r : CompareResult)
    (hcols : old.cols = new.cols) (hsub : ∀ k ∈ onCols, k ∈ old.cols)
    (huo : uniqueKeys old onCols) (hun : uniqueKeys new onCols)
    (ho : o ∈ old.rows) (hn : n ∈ new.rows)
    (hk : keyTuple onCols new.cols n = keyTuple onCols old.cols o)
    (hr : compare_dfs old new onCols = .ok r) :
    (∀ dt : Dtype, colDiffers dt .null .null = false) ∧
    ((∀ c ∈ valCols old onCols,
        valueAt old.cols o c = .null ∧ valueAt new.cols n c = .null) →
      projRow old.cols new.cols n ∉ r.diff.rows) ∧
    (∀ c ∈ valCols old onCols,
      ((valueAt old.cols o c = .null ∧ valueAt new.cols n c ≠ .null) ∨
       (valueAt old.cols o c ≠ .null ∧ valueAt new.cols n c = .null)) →
      projRow old.cols new.cols n ∈ r.diff.rows) := by
  have hrr := compare_dfs_ok_inv hr
  subst hrr
  refine ⟨colDiffers_null_null, ?_, ?_⟩
  · intro hall hmem
    obtain ⟨o', ho', n', hn', hkey', hd', heq⟩ := mem_diffRows.mp hmem
    have hkn : keyTuple onCols new.cols n = keyTuple onCols new.cols n' :=
      keyTuple_eq_of_projRow_eq hsub heq
    have hnn : n' = n := List.inj_on_of_nodup_map hun hn' hn hkn.symm
    rw [hnn] at hkey' hd'
    have hoo : o' = o := List.inj_on_of_nodup_map huo ho' ho (by rw [← hkey', hk])
    rw [hoo] at hd'
    have hfalse : rowDiffers old new onCols o n = false := by
      rw [rowDiffers, List.any_eq_false]
      intro c hc
      obtain ⟨h1, h2⟩ := hall c hc
      rw [h1, h2]
      simp [colDiffers_null_null]
    rw [hfalse] at hd'
    exact Bool.false_ne_true hd'
  · intro c hc hcase
    apply mem_diffRows.mpr
    refine ⟨o, ho, n, hn, hk, ?_, rfl⟩
    rw [rowDiffers, List.any_eq_true]
    refine ⟨c, hc, ?_⟩
    rcases hcase with ⟨h1, h2⟩ | ⟨h1, h2⟩
    · rw [h1]
      exact colDiffers_null_of_ne (Value.isNull_eq_false h2)
    · rw [h2]
      exact colDiffers_of_ne_null (Value.isNull_eq_false h1)

/-- C4 witness: on a concrete pair where column `v` goes from null to the
string `'x'`, the row is in `diff`. -/
theorem c4_null_semantics_witness :
    projRow dfNullOld.cols dfNullNew.cols [Value.num 1, Value.str "x"] ∈ resNull.diff.rows := by
  have h := c4_null_semantics dfNullOld dfNullNew ["id"] [Value.num 1, Value.null]
    [Value.num 1, Value.str "x"] resNull (by decide) (by decide) (by decide) (by decide)
    (by decide) (by decide) (by decide) (by decide)
  exact h.2.2 "v" (by decide) (Or.inl ⟨by decide, by decide⟩)

/-- C5: float64 non-key columns are compared with `np.isclose`'s
tolerance-based equality `|x - y| <= atol + rtol * |y|` with
`atol = 1e-8` and `rtol = 1e-5`, not bitwise equality: `1.0` versus
`1.0000001` is not reported in `diff`, while `1.0` versus `1.1` is. -/
theorem c5_float_tolerance :
    (∀ x y : ℚ, colDiffers .float64 (.num x) (.num y) = false ↔
        |x - y| ≤ atol + rtol * |y|) ∧
    atol = 1 / 100000000 ∧ rtol = 1 / 100000 ∧
    compare_dfs dfTolOld dfTolClose ["id"] =
      .ok ⟨⟨["id", "val"], [.float64, .float64], []⟩,
           ⟨["id", "val"], [.float64, .float64], []⟩, ⟨["id"], [.float64], []⟩⟩ ∧
    compare_dfs dfTolOld dfTolFar ["id"] =
      .ok ⟨⟨["id", "val"], [.float64, .float64], [[.num 1, .num (mkRat 11 10)]]⟩,
           ⟨["id", "val"], [.float64, .float64], []⟩, ⟨["id"], [.float64], []⟩⟩ := by
  refine ⟨?_, rfl, rfl, by decide, by decide⟩
  intro x y
  have hmask : colDiffers .float64 (.num x) (.num y) = ! iscloseQ x y := by
    simp [colDiffers, isclose, Value.isNull]
  rw [hmask, ← iscloseQ_iff x y]
  cases h : iscloseQ x y <;> simp [h]

/-- C6: shapes of the three outputs for any successful run: every `diff` row
is the full row of the new relation for a key present in both inputs with
some differing non-key column; every `remove` row is the key tuple of an
old row whose key matches no new row; every `new` row is the full new-
relation row of a key matching no old row. -/
theorem c6_output_shapes (old new : DF) (onCols : List String) (r : CompareResult)
    (hwfn : wf new) (hcols : old.cols = new.cols)
    (huo : uniqueKeys old onCols) (hun : uniqueKeys new onCols)
    (hr : compare_dfs old new onCols = .ok r) :
    (∀ x ∈ r.diff.rows, ∃ n ∈ new.rows, x = n ∧
        ∃ o ∈ old.rows, keyTuple onCols new.cols n = keyTuple onCols old.cols o ∧
          ∃ c ∈ valCols old onCols,
            colDiffers (dtypeOf old c) (valueAt old.cols o c) (valueAt new.cols n c) = true) ∧
    (∀ x ∈ r.remove.rows, ∃ o ∈ old.rows, x = keyTuple onCols old.cols o ∧
        ∀ n ∈ new.rows, keyTuple onCols new.cols n ≠ keyTuple onCols old.cols o) ∧
    (∀ x ∈ r.new.rows, ∃ n ∈ new.rows, x = n ∧
        ∀ o ∈ old.rows, keyTuple onCols old.cols o ≠ keyTuple onCols new.cols n) := by
  have hrr := compare_dfs_ok_inv hr
  subst hrr
  refine ⟨?_, ?_, ?_⟩
  · intro x hx
    obtain ⟨o, ho, n, hn, hkey, hd, rfl⟩ := mem_diffRows.mp hx
    refine ⟨n, hn, ?_, o, ho, hkey, ?_⟩
    · rw [hcols]
      exact projRow_self hwfn.1 (hwfn.2.2 n hn)
    · rw [rowDiffers, List.any_eq_true] at hd
      exact hd
  · intro x hx
    obtain ⟨o, ho2, rfl⟩ := List.mem_map.mp hx
    obtain ⟨ho, hnone⟩ := mem_leftOnlyRows.mp ho2
    exact ⟨o, ho, rfl, hnone⟩
  · intro x hx
    obtain ⟨n, hn2, rfl⟩ := List.mem_map.mp hx
    obtain ⟨hn, hnone⟩ := mem_rightOnlyRows.mp hn2
    refine ⟨n, hn, ?_, hnone⟩
    rw [hcols]
    exact projRow_self hwfn.1 (hwfn.2.2 n hn)

/-- C6 witness: the shape theorem applied to a concrete scenario with one
changed, one removed and one added key. -/
theorem c6_output_shapes_witness :
    (∀ x ∈ resShape.diff.rows, ∃ n ∈ dfShapeNew.rows, x = n ∧
        ∃ o ∈ dfShapeOld.rows,
          keyTuple ["id"] dfShapeNew.cols n = keyTuple ["id"] dfShapeOld.cols o ∧
          ∃ c ∈ valCols dfShapeOld ["id"],
            colDiffers (dtypeOf dfShapeOld c) (valueAt dfShapeOld.cols o c)
              (valueAt dfShapeNew.cols n c) = true) ∧
    (∀ x ∈ resShape.remove.rows, ∃ o ∈ dfShapeOld.rows,
        x = keyTuple ["id"] dfShapeOld.cols o ∧
        ∀ n ∈ dfShapeNew.rows,
          keyTuple ["id"] dfShapeNew.cols n ≠ keyTuple ["id"] dfShapeOld.cols o) ∧
    (∀ x ∈ resShape.new.rows, ∃ n ∈ dfShapeNew.rows, x = n ∧
        ∀ o ∈ dfShapeOld.rows,
          keyTuple ["id"] dfShapeOld.cols o ≠ keyTuple ["id"] dfShapeNew.cols n) :=
  c6_output_shapes dfShapeOld dfShapeNew ["id"] resShape (by decide) (by decide)
    (by decide) (by decide) (by decide)

/-- C8: the claim says `save_df` raises `UnsupportedFormat` on unrecognised
extensions and dispatches on recognised ones.  In fact every call — here
with extension `.txt` and with the recognised `.csv` alike — raises
`AttributeError` at `os.path_str` (line 163) before any extension is
examined. -/
theorem c8_save_df_attribute_error :
    save_df dfSelf "out.txt" true true =
      .error (.attributeError "module os has no attribute path_str") ∧
    save_df dfSelf "out.csv" true true =
      .error (.attributeError "module os has no attribute path_str") := ⟨rfl, rfl⟩

/-- C9 counterexample: with pymssql unavailable and every `connect()`
failing, `create_engine` returns a normal engine (built from the last
fallback driver) plus a printed message — not an explicit typed failure
listing the attempted drivers. -/
theorem c9_returns_engine_on_exhaustion :
    create_engine allFailEnv "mssql" "server1" "db1" none none =
      .ok (⟨"mssql+pyodbc://server1/db1?driver=SQL+Server+Native+Client+11.0"⟩,
           ["Install a proper ODBC mssql driver"]) := rfl

/-- C9 amended: for the mssql backend, when pymssql is unavailable and every
driver in the fallback ladder fails to connect, `create_engine` prints
`'Install a proper ODBC mssql driver'` and returns, without raising, the
engine built from the last fallback driver
(`SQL+Server+Native+Client+11.0`) whose connection was never opened. -/
theorem c9_driver_exhaustion (env : DBEnv) (server database : String)
    (hp : env.pymssql_available = false)
    (hc : ∀ s, env.connect_ok s = false) :
    create_engine env "mssql" server database none none =
      .ok (⟨"mssql+pyodbc://" ++ server ++ "/" ++ database ++
            "?driver=SQL+Server+Native+Client+11.0"⟩,
           ["Install a proper ODBC mssql driver"]) := by
  unfold create_engine
  rw [if_pos rfl, if_neg (by simp [hp])]
  simp [mssqlDriverLadder, mssqlDrivers, hc, upString]
  rw [String.append_assoc]
  congr 1

/-- C9 witness: the amended theorem applied to the all-failure
environment. -/
theorem c9_driver_exhaustion_witness :
    create_engine allFailEnv "mssql" "srv" "database1" none none =
      .ok (⟨"mssql+pyodbc://" ++ "srv" ++ "/" ++ "database1" ++
            "?driver=SQL+Server+Native+Client+11.0"⟩,
           ["Install a proper ODBC mssql driver"]) :=
  c9_driver_exhaustion allFailEnv "srv" "database1" rfl (fun _ => rfl)

/-- C10: for every DataFrame, path and flag values, `save_df` raises
`AttributeError` (splitting the extension of the nonexistent `os.path_str`
instead of the `path_str` argument) before reaching either serialization
branch, so no file is ever written for any extension. -/
theorem c10_save_df_always_raises (df : DF) (path_str : String) (index header : Bool) :
    save_df df path_str index header =
      .error (.attributeError "module os has no attribute path_str") := rfl

end Pdsql
